import Mathlib

/-!
Shallow embedding of the question-to-answer pipeline of the E-commerce
agent repository: the Python string primitives it relies on, the Store
boundary `execute_query` (src/sql.py), and the agent methods
`_generate_sql_query`, `_format_response`, `process_question` and
`stream_process_question` (src/agent.py).  Whitespace and case folding
are modelled at the ASCII level, matching the SQL keywords and sentinel
strings the code compares against.
-/

namespace ECommerce

/-- Whitespace test used by Python `str.strip` (ASCII whitespace characters). -/
def isPySpace (c : Char) : Bool :=
  c = ' ' || c = '\t' || c = '\n' || c = '\r' || c = '\x0b' || c = '\x0c'

/-- Python `str.strip()` on a character list: drop leading and trailing whitespace. -/
def stripChars (l : List Char) : List Char :=
  ((l.dropWhile isPySpace).reverse.dropWhile isPySpace).reverse

/-- Python `str.strip()`. -/
def pyStrip (s : String) : String := String.mk (stripChars s.data)

/-- Python `str.upper()` (ASCII case folding). -/
def pyUpper (s : String) : String := String.mk (s.data.map Char.toUpper)

/-- Python `str.startswith`: character-level prefix test. -/
def pyStartsWith (s pre : String) : Bool := pre.data.isPrefixOf s.data

/-- Python `sep.join(parts)`. -/
def joinWith (sep : String) : List String → String
  | [] => ""
  | [a] => a
  | a :: b :: rest => a ++ sep ++ joinWith sep (b :: rest)

/-- A cell value as handed back by the sqlite driver and rendered by the
formatter with Python `str()`.  The repository's tables hold text, integers
and possibly missing values; those are the shapes the claims exercise. -/
inductive Value where
  | intV : Int → Value
  | textV : String → Value
  | nullV : Value
deriving DecidableEq

/-- Python `str()` on a cell value. -/
def Value.pyStr : Value → String
  | .intV i => toString i
  | .textV s => s
  | .nullV => "None"

/-- The three dictionary shapes `execute_query` (src/sql.py) can return:
`{"error": msg}`, `{"message": msg}`, and `{"columns": ..., "rows": ...}`
with each row an ordered mapping of column name to value. -/
inductive QueryResult where
  | failure : String → QueryResult
  | statusMessage : String → QueryResult
  | rows : List String → List (List (String × Value)) → QueryResult
deriving DecidableEq

/-- `str(row.get(col, 'N/A'))` from `_format_response` (src/agent.py line 99):
the value's string form, or the literal `N/A` when the key is missing. -/
def rowGet (row : List (String × Value)) (col : String) : String :=
  match row.lookup col with
  | some v => v.pyStr
  | none => "N/A"

/-- Embedding of `AIAgent._format_response` (src/agent.py lines 73-103). -/
def format_response (query_result : QueryResult) (original_question : String) : String :=
  match query_result with
  | .failure err => "I encountered an error while fetching data: " ++ err
  | .statusMessage msg => msg
  | .rows columns rows =>
    if rows.isEmpty then
      "I couldn't find any results for your question: '" ++ original_question ++ "'."
    else
      let header_row := joinWith " | " columns
      let separator := String.mk (List.replicate header_row.length '-')
      let row_lines := rows.map (fun row => joinWith " | " (columns.map (fun col => rowGet row col)))
      joinWith "\n"
        (("Here are the results for '" ++ original_question ++ "':\n") ::
          header_row :: separator :: row_lines)

/-- Abstract model of the sqlite3 driver as used by `execute_query`
(src/sql.py).  `connect` says whether `sqlite3.connect` succeeds on the
current database state (`get_db_connection` returns `None` on failure);
`exec` models `cursor.execute` followed by reading `cursor.description`
and `fetchall()`: it either raises an `sqlite3.Error` carrying a message
(`.error`), or yields the result columns, the rows as ordered
column-name-to-value mappings, and the not-yet-committed successor state. -/
structure Driver (σ : Type) where
  connect : σ → Bool
  exec : σ → String → Except String (List String × List (List (String × Value)) × σ)

variable {σ : Type}

/-- Embedding of `execute_query` (src/sql.py lines 166-190), with the
database state passed explicitly.  Closing the connection without `commit`
rolls an open transaction back, so only the non-SELECT branch, which
commits, publishes the driver's successor state; the SELECT branch and
the error branch leave the state as it was. -/
def execute_query (drv : Driver σ) (st : σ) (sql_query : String) : QueryResult × σ :=
  if drv.connect st then
    match drv.exec st sql_query with
    | .error e => (.failure e, st)
    | .ok (columns, results, st') =>
      if pyStartsWith (pyUpper (pyStrip sql_query)) "SELECT" then
        (.rows columns results, st)
      else
        (.statusMessage "Query executed successfully.", st')
  else
    (.failure "Database connection failed.", st)

/-- The shape validation in `_generate_sql_query` (src/agent.py line 67):
`sql_query.strip().upper().startswith(("SELECT", "INSERT", "UPDATE", "DELETE"))`. -/
def looksLikeSQL (sql_query : String) : Bool :=
  pyStartsWith (pyUpper (pyStrip sql_query)) "SELECT" ||
  pyStartsWith (pyUpper (pyStrip sql_query)) "INSERT" ||
  pyStartsWith (pyUpper (pyStrip sql_query)) "UPDATE" ||
  pyStartsWith (pyUpper (pyStrip sql_query)) "DELETE"

/-- Embedding of `AIAgent._generate_sql_query` (src/agent.py lines 41-71).
The Gateway is a function from the question to either a raised exception
(`.error`, caught and mapped to the `N/A` sentinel) or the response text
(`.ok`); the prompt strings wrapped around the question do not affect the
returned value and are omitted. -/
def generate_sql_query (llm : String → Except String String) (question : String) : String :=
  match llm question with
  | .error _ => "N/A"
  | .ok sql_query => if looksLikeSQL sql_query then pyStrip sql_query else "N/A"

/-- The fixed apology returned when no SQL could be generated
(src/agent.py lines 114 and 129). -/
def apology : String :=
  "I'm sorry, I couldn't generate a valid SQL query for that question based on the available data."

/-- Embedding of `AIAgent.process_question` (src/agent.py lines 105-118).
The third component records the SQL statements passed to `execute_query`,
so that "never calls the Store" is expressible. -/
def process_question (llm : String → Except String String) (drv : Driver σ) (st : σ)
    (question : String) : String × σ × List String :=
  let sql_query := generate_sql_query llm question
  if sql_query = "N/A" then
    (apology, st, [])
  else
    let res := execute_query drv st sql_query
    (format_response res.1 question, res.2, [sql_query])

/-- Embedding of `AIAgent.stream_process_question` (src/agent.py lines
120-139): the list of chunks the generator yields, in order, together with
the final database state. -/
def stream_process_question (llm : String → Except String String) (drv : Driver σ) (st : σ)
    (question : String) : List String × σ :=
  let sql_query := generate_sql_query llm question
  if sql_query = "N/A" then
    (["Thinking...\n", apology ++ "\n"], st)
  else
    let res := execute_query drv st sql_query
    (["Thinking...\n",
      "Generated SQL query: `" ++ sql_query ++ "`\n",
      "Fetching data...\n",
      format_response res.1 question ++ "\n",
      "Process complete."], res.2)

/-- A driver whose connection always succeeds and whose execution always
yields a one-column, one-row result without touching the state; used to
instantiate universally quantified theorems at a concrete input. -/
def constDriver : Driver Nat where
  connect := fun _ => true
  exec := fun st _ => .ok (["a"], [[("a", Value.intV 1)]], st)

/-- A driver whose connection always fails. -/
def noConnDriver : Driver Nat where
  connect := fun _ => false
  exec := fun st _ => .ok ([], [], st)

/-- A driver whose execution always raises, with a fixed driver error text. -/
def errDriver : Driver Nat where
  connect := fun _ => true
  exec := fun _ _ => .error "no such table: t"

/-! Helper lemmas about `List.dropWhile`, leading to idempotence of
Python's `str.strip()`. -/

theorem dropWhile_self_idem (p : Char → Bool) (l : List Char) :
    (l.dropWhile p).dropWhile p = l.dropWhile p := by
  induction l with
  | nil => rfl
  | cons a t ih =>
    by_cases h : p a
    · simp [List.dropWhile_cons, h, ih]
    · simp [List.dropWhile_cons, h]

theorem dropWhile_head_not (p : Char → Bool) (l : List Char) (a : Char) (t : List Char)
    (h : l.dropWhile p = a :: t) : p a = false := by
  induction l with
  | nil => simp at h
  | cons b u ih =>
    by_cases hb : p b
    · rw [List.dropWhile_cons, if_pos hb] at h
      exact ih h
    · rw [List.dropWhile_cons, if_neg hb] at h
      injection h with h1 h2
      subst h1
      simpa using hb

theorem dropWhile_exists_takeWhile (p : Char → Bool) (l : List Char) :
    ∃ pre, l = pre ++ l.dropWhile p := by
  induction l with
  | nil => exact ⟨[], rfl⟩
  | cons a t ih =>
    by_cases h : p a
    · obtain ⟨pre, hpre⟩ := ih
      refine ⟨a :: pre, ?_⟩
      rw [List.dropWhile_cons, if_pos h]
      simpa using hpre
    · refine ⟨[], ?_⟩
      rw [List.dropWhile_cons, if_neg h]
      rfl

theorem stripChars_idem (l : List Char) : stripChars (stripChars l) = stripChars l := by
  unfold stripChars
  set p := isPySpace with hp
  set m := l.dropWhile p with hm
  have hmm : m.dropWhile p = m := by rw [hm]; exact dropWhile_self_idem p l
  set X := (m.reverse.dropWhile p).reverse with hX
  have hXdrop : X.dropWhile p = X := by
    cases hXc : X with
    | nil => rfl
    | cons a X' =>
      obtain ⟨pre, hpre⟩ := dropWhile_exists_takeWhile p m.reverse
      have hmX : m = X ++ pre.reverse := by
        have := congrArg List.reverse hpre
        simpa [hX] using this
      have hma : m.dropWhile p = a :: (X' ++ pre.reverse) := by
        rw [hmm, hmX, hXc]
        rfl
      have hpa : p a = false := dropWhile_head_not p m a _ hma
      simp [List.dropWhile_cons, hpa]
  have hXrev : X.reverse = m.reverse.dropWhile p := by rw [hX, List.reverse_reverse]
  calc ((X.dropWhile p).reverse.dropWhile p).reverse
      = (X.reverse.dropWhile p).reverse := by rw [hXdrop]
    _ = ((m.reverse.dropWhile p).dropWhile p).reverse := by rw [hXrev]
    _ = (m.reverse.dropWhile p).reverse := by rw [dropWhile_self_idem]
    _ = X := rfl

theorem pyStrip_idem (s : String) : pyStrip (pyStrip s) = pyStrip s := by
  show String.mk (stripChars (stripChars s.data)) = String.mk (stripChars s.data)
  rw [stripChars_idem]

/-- Claim C7: a Failure result formats to exactly the error sentence carrying
the driver's message, and a StatusMessage result formats to its text verbatim. -/
theorem format_failure_and_status (msg text question : String) :
    format_response (.failure msg) question =
      "I encountered an error while fetching data: " ++ msg ∧
    format_response (.statusMessage text) question = text :=
  ⟨rfl, rfl⟩

/-- Claim C8: a Rows result with no rows formats to exactly the
no-results sentence quoting the question; in particular for columns
`x` and question `foo`. -/
theorem format_empty_rows (columns : List String) (question : String) :
    format_response (.rows columns []) question =
      "I couldn't find any results for your question: '" ++ question ++ "'." ∧
    format_response (.rows ["x"] []) "foo" =
      "I couldn't find any results for your question: 'foo'." :=
  ⟨rfl, by decide⟩

/-- Claim C1, counterexample: on `Rows{columns:["a","b"], rows:[{"a":1,"b":2}]}`
the formatter does not return the bare three-line table the claim demands: the
code prepends a results preamble line (followed by a blank line) and uses a
separator whose dash count equals the header length (five dashes, not three). -/
theorem format_rows_counterexample :
    format_response (.rows ["a", "b"] [[("a", Value.intV 1), ("b", Value.intV 2)]]) "q" ≠
      "a | b\n---\n1 | 2" := by
  decide

/-- Claim C1, amended: for every non-empty Rows result, the formatter output is
the line `Here are the results for '{question}':` followed by a blank line, then
the header of the column names joined by `" | "`, then a separator of as many
dashes as the header has characters, then one line per row with each column
rendered as its string form (a missing key rendering as the literal `N/A`)
joined by `" | "`, all newline-separated. -/
theorem format_rows_nonempty (columns : List String)
    (rows : List (List (String × Value))) (question : String) (h : rows ≠ []) :
    format_response (.rows columns rows) question =
      "Here are the results for '" ++ question ++ "':\n" ++ "\n" ++
        joinWith "\n"
          (joinWith " | " columns ::
            String.mk (List.replicate (joinWith " | " columns).length '-') ::
            rows.map (fun row => joinWith " | " (columns.map (fun col => rowGet row col)))) := by
  match rows, h with
  | r :: rs, _ =>
    show joinWith "\n" _ = _
    simp only [format_response, List.map_cons, joinWith]

/-- Witness for `format_rows_nonempty` at the concrete input of claim C1. -/
theorem format_rows_nonempty_witness :
    format_response (.rows ["a", "b"] [[("a", Value.intV 1), ("b", Value.intV 2)]]) "q" =
      "Here are the results for 'q':\n\na | b\n-----\n1 | 2" :=
  (format_rows_nonempty ["a", "b"] [[("a", Value.intV 1), ("b", Value.intV 2)]] "q"
    (by decide)).trans (by decide)

/-- Claim C2: whenever the Gateway returns a text response that, after
trimming, does not case-insensitively start with SELECT, INSERT, UPDATE or
DELETE — which covers the literal `N/A` sentinel, gateway error text, and any
other shape — the Synthesizer returns the `N/A` sentinel (and, by its return
type, a plain string: no raw error reaches the caller). -/
theorem synthesizer_rejects_non_sql (llm : String → Except String String)
    (question response : String) (hresp : llm question = Except.ok response)
    (hsel : pyStartsWith (pyUpper (pyStrip response)) "SELECT" = false)
    (hins : pyStartsWith (pyUpper (pyStrip response)) "INSERT" = false)
    (hupd : pyStartsWith (pyUpper (pyStrip response)) "UPDATE" = false)
    (hdel : pyStartsWith (pyUpper (pyStrip response)) "DELETE" = false) :
    generate_sql_query llm question = "N/A" := by
  simp [generate_sql_query, hresp, looksLikeSQL, hsel, hins, hupd, hdel]

/-- Witness for `synthesizer_rejects_non_sql`: a Gateway answering with the
literal `N/A` sentinel makes the Synthesizer report `N/A`. -/
theorem synthesizer_rejects_non_sql_witness :
    generate_sql_query (fun _ => Except.ok "N/A") "foo" = "N/A" :=
  synthesizer_rejects_non_sql (fun _ => Except.ok "N/A") "foo" "N/A" rfl
    (by decide) (by decide) (by decide) (by decide)

/-- Claim C10: for every Gateway, the Synthesizer's return value is either the
literal `N/A` sentinel or a string that is its own trim and case-insensitively
starts with one of SELECT, INSERT, UPDATE, DELETE; in the latter case it is
distinct from `N/A`, so the Orchestrator's equality test against `N/A` exactly
discriminates the no-query outcome. -/
theorem synthesizer_output_shape (llm : String → Except String String) (question : String) :
    generate_sql_query llm question = "N/A" ∨
    (generate_sql_query llm question ≠ "N/A" ∧
      pyStrip (generate_sql_query llm question) = generate_sql_query llm question ∧
      (pyStartsWith (pyUpper (generate_sql_query llm question)) "SELECT" ||
        pyStartsWith (pyUpper (generate_sql_query llm question)) "INSERT" ||
        pyStartsWith (pyUpper (generate_sql_query llm question)) "UPDATE" ||
        pyStartsWith (pyUpper (generate_sql_query llm question)) "DELETE") = true) := by
  cases hr : llm question with
  | error e =>
    left
    simp [generate_sql_query, hr]
  | ok s =>
    by_cases hls : looksLikeSQL s = true
    · have hg : generate_sql_query llm question = pyStrip s := by
        simp [generate_sql_query, hr, hls]
      right
      rw [hg]
      refine ⟨?_, pyStrip_idem s, ?_⟩
      · intro hna
        have hfalse : looksLikeSQL s = false := by
          unfold looksLikeSQL
          rw [hna]
          decide
        rw [hls] at hfalse
        exact Bool.noConfusion hfalse
      · unfold looksLikeSQL at hls
        exact hls
    · left
      simp [generate_sql_query, hr, hls]

/-- Claim C3: `execute_query` is total over the three result variants; when the
connection cannot be opened it returns Failure with exactly the message
`Database connection failed.`, and when the driver raises it returns Failure
carrying the driver's error text. -/
theorem store_execute_total (drv : Driver σ) (st : σ) (sql : String) :
    ((∃ m, (execute_query drv st sql).1 = .failure m) ∨
      (∃ c r, (execute_query drv st sql).1 = .rows c r) ∨
      (∃ m, (execute_query drv st sql).1 = .statusMessage m)) ∧
    (drv.connect st = false →
      (execute_query drv st sql).1 = .failure "Database connection failed.") ∧
    (∀ e, drv.connect st = true → drv.exec st sql = .error e →
      (execute_query drv st sql).1 = .failure e) := by
  refine ⟨?_, ?_, ?_⟩
  · unfold execute_query
    by_cases hc : drv.connect st
    · rw [if_pos hc]
      cases hex : drv.exec st sql with
      | error e => exact Or.inl ⟨e, rfl⟩
      | ok v =>
        obtain ⟨c, r, st'⟩ := v
        by_cases hs : pyStartsWith (pyUpper (pyStrip sql)) "SELECT"
        · exact Or.inr (Or.inl ⟨c, r, by simp [hs]⟩)
        · exact Or.inr (Or.inr ⟨"Query executed successfully.", by simp [hs]⟩)
    · rw [if_neg hc]
      exact Or.inl ⟨"Database connection failed.", rfl⟩
  · intro hc
    simp [execute_query, hc]
  · intro e hc hex
    simp [execute_query, hc, hex]

/-- Witness for `store_execute_total`: a failing connection yields the uniform
connection-failure message, and a raising driver yields its error text. -/
theorem store_execute_total_witness :
    (execute_query noConnDriver 0 "SELECT 1").1 =
      QueryResult.failure "Database connection failed." ∧
    (execute_query errDriver 0 "SELEC 1").1 = QueryResult.failure "no such table: t" :=
  ⟨(store_execute_total noConnDriver 0 "SELECT 1").2.1 rfl,
    (store_execute_total errDriver 0 "SELEC 1").2.2 "no such table: t" rfl rfl⟩

/-- Claim C4: on a successful driver execution, `execute_query` dispatches on
the statement's trimmed, case-folded prefix: a SELECT yields Rows with the
descriptor's column names and the rows as ordered name-to-value mappings and
leaves the state untouched; anything else commits the driver's successor state
and yields the fixed StatusMessage. -/
theorem store_execute_dispatch (drv : Driver σ) (st st' : σ) (sql : String)
    (columns : List String) (results : List (List (String × Value)))
    (hc : drv.connect st = true) (hex : drv.exec st sql = .ok (columns, results, st')) :
    (pyStartsWith (pyUpper (pyStrip sql)) "SELECT" = true →
      execute_query drv st sql = (.rows columns results, st)) ∧
    (pyStartsWith (pyUpper (pyStrip sql)) "SELECT" = false →
      execute_query drv st sql = (.statusMessage "Query executed successfully.", st')) := by
  constructor <;> intro h <;> simp [execute_query, hc, hex, h]

/-- Witness for `store_execute_dispatch`: a SELECT returns the driver's rows,
a DDL statement returns the fixed success message. -/
theorem store_execute_dispatch_witness :
    execute_query constDriver 0 "SELECT 1" =
      (QueryResult.rows ["a"] [[("a", Value.intV 1)]], 0) ∧
    execute_query constDriver 0 "DROP TABLE t" =
      (QueryResult.statusMessage "Query executed successfully.", 0) :=
  ⟨(store_execute_dispatch constDriver 0 0 "SELECT 1" ["a"] [[("a", Value.intV 1)]]
      rfl rfl).1 (by decide),
    (store_execute_dispatch constDriver 0 0 "DROP TABLE t" ["a"] [[("a", Value.intV 1)]]
      rfl rfl).2 (by decide)⟩

/-- Claim C9: a SELECT statement never commits, so `execute_query` leaves the
database state unchanged, and running the same SELECT again on that state
returns the identical result: execution of SELECTs is a deterministic,
state-preserving function of the SQL text and the database state. -/
theorem store_select_idempotent (drv : Driver σ) (st : σ) (sql : String)
    (hsel : pyStartsWith (pyUpper (pyStrip sql)) "SELECT" = true) :
    (execute_query drv st sql).2 = st ∧
    execute_query drv (execute_query drv st sql).2 sql = execute_query drv st sql := by
  have h2 : (execute_query drv st sql).2 = st := by
    unfold execute_query
    by_cases hc : drv.connect st
    · cases hex : drv.exec st sql with
      | error e => simp [hc, hex]
      | ok v =>
        obtain ⟨c, r, st'⟩ := v
        simp [hc, hex, hsel]
    · simp [hc]
  exact ⟨h2, by rw [h2]⟩

/-- Witness for `store_select_idempotent` on a concrete driver and SELECT. -/
theorem store_select_idempotent_witness :
    (execute_query constDriver 0 "SELECT 1").2 = 0 ∧
    execute_query constDriver (execute_query constDriver 0 "SELECT 1").2 "SELECT 1" =
      execute_query constDriver 0 "SELECT 1" :=
  store_select_idempotent constDriver 0 "SELECT 1" (by decide)

/-- Claim C5: when the Gateway returns the literal text `N/A`, the Orchestrator
returns the fixed apology and never calls `execute_query` (its call log is
empty); otherwise, when synthesis succeeded, it runs `execute_query` on the
synthesized SQL and returns the formatted result. -/
theorem orchestrator_na_and_success (llm : String → Except String String)
    (drv : Driver σ) (st : σ) (question : String) :
    (llm question = Except.ok "N/A" →
      process_question llm drv st question = (apology, st, [])) ∧
    (generate_sql_query llm question ≠ "N/A" →
      process_question llm drv st question =
        (format_response (execute_query drv st (generate_sql_query llm question)).1 question,
          (execute_query drv st (generate_sql_query llm question)).2,
          [generate_sql_query llm question])) := by
  constructor
  · intro h
    have hg : generate_sql_query llm question = "N/A" := by
      unfold generate_sql_query
      rw [h]
      decide
    simp [process_question, hg]
  · intro h
    simp [process_question, h]

/-- Witness for `orchestrator_na_and_success`: an `N/A` Gateway yields the
apology with no Store call; a SELECT-producing Gateway yields the formatted
table after one Store call. -/
theorem orchestrator_na_and_success_witness :
    process_question (fun _ => Except.ok "N/A") constDriver 0 "foo" = (apology, 0, []) ∧
    process_question (fun _ => Except.ok "SELECT 1") constDriver 0 "foo" =
      ("Here are the results for 'foo':\n\na\n-\n1", 0, ["SELECT 1"]) :=
  ⟨(orchestrator_na_and_success (fun _ => Except.ok "N/A") constDriver 0 "foo").1 rfl,
    ((orchestrator_na_and_success (fun _ => Except.ok "SELECT 1") constDriver 0 "foo").2
      (by decide)).trans (by decide)⟩

/-- Claim C6: when synthesis succeeds, the staged form yields exactly five
chunks in order — the thinking notice, the SQL notice containing the
synthesized SQL, the fetching notice, the formatted answer, and the completion
notice — and when synthesis fails it yields the thinking notice, then the
apology, and stops. -/
theorem staged_orchestration_chunks (llm : String → Except String String)
    (drv : Driver σ) (st : σ) (question : String) :
    (generate_sql_query llm question ≠ "N/A" →
      stream_process_question llm drv st question =
        (["Thinking...\n",
          "Generated SQL query: `" ++ generate_sql_query llm question ++ "`\n",
          "Fetching data...\n",
          format_response (execute_query drv st (generate_sql_query llm question)).1 question
            ++ "\n",
          "Process complete."],
          (execute_query drv st (generate_sql_query llm question)).2)) ∧
    (generate_sql_query llm question = "N/A" →
      stream_process_question llm drv st question = (["Thinking...\n", apology ++ "\n"], st)) := by
  constructor
  · intro h
    simp [stream_process_question, h]
  · intro h
    simp [stream_process_question, h]

/-- Witness for `staged_orchestration_chunks`: the five chunks on a successful
question, and the two chunks when the Gateway answers `N/A`. -/
theorem staged_orchestration_chunks_witness :
    stream_process_question (fun _ => Except.ok "SELECT 1") constDriver 0 "foo" =
      (["Thinking...\n",
        "Generated SQL query: `SELECT 1`\n",
        "Fetching data...\n",
        "Here are the results for 'foo':\n\na\n-\n1\n",
        "Process complete."], 0) ∧
    stream_process_question (fun _ => Except.ok "N/A") constDriver 0 "foo" =
      (["Thinking...\n", apology ++ "\n"], 0) :=
  ⟨((staged_orchestration_chunks (fun _ => Except.ok "SELECT 1") constDriver 0 "foo").1
      (by decide)).trans (by decide),
    (staged_orchestration_chunks (fun _ => Except.ok "N/A") constDriver 0 "foo").2 (by decide)⟩

end ECommerce
